import Mathlib

/-!
Shallow embedding of `grafana/resource_datasource_permission.go` from
`terraform-provider-grafana`.

The file defines the data model (grants, payloads, remote permission
records, the Terraform resource-data state), a model of the Grafana API
client as an outcome oracle for the three remote calls
(`AddDatasourcePermission`, `DatasourcePermissions`,
`RemoveDatasourcePermission`), and the three operations
(`UpdateDatasourcePermissions`, `ReadDatasourcePermissions`,
`DeleteDatasourcePermissions`) as pure functions returning the
diagnostics result, the updated local state, and the ordered trace of
remote calls issued.  Theorems about the claims follow the definitions.
-/

/-- A Go error is modelled by its rendered message (`err.Error()`).
`none` models a `nil` error. -/
abbrev GoError := String

/-- `diag.Diagnostics` as used in this file: either `nil` (success) or
`diag.FromErr(err)` carrying the underlying error unmodified. -/
abbrev Diag := Option GoError

/-- One element of the `permissions` set in the Terraform schema:
`{team_id: int, default 0; user_id: int, default 0; permission: string}`. -/
structure Grant where
  team_id : Int
  user_id : Int
  permission : String
deriving Repr, DecidableEq

/-- `gapi.DatasourcePermissionAddPayload`; Go zero values are 0. -/
structure DatasourcePermissionAddPayload where
  TeamID : Int := 0
  UserID : Int := 0
  Permission : Int := 0
deriving Repr, DecidableEq

/-- One record of the server's permission list
(`response.Permissions` element). -/
structure RemotePermission where
  TeamID : Int
  UserID : Int
  Permission : Int
deriving Repr, DecidableEq

/-- The local Terraform state (`*schema.ResourceData`): the tracking
identifier (`d.Id()`), the `datasource_id` attribute and the
`permissions` attribute (`none` = unset). -/
structure ResourceData where
  id : String
  datasource_id : Int
  permissions : Option (List Grant)
deriving Repr, DecidableEq

/-- One remote API call, recorded in issue order. -/
inductive RemoteCall where
  | add (dsID : Int) (payload : DatasourcePermissionAddPayload)
  | list (dsID : Int)
  | remove (dsID : Int) (permissionCode : Int)
deriving Repr, DecidableEq

/-- The Grafana API client, modelled as an oracle giving the outcome of
each remote call: `addResult k` / `removeResult k` is the outcome of the
k-th (0-based) add / remove call issued by the running operation
(`none` = success), and `listResult` is the outcome of the
`DatasourcePermissions` list call. -/
structure Client where
  addResult : Nat → Option GoError
  listResult : Except GoError (List RemotePermission)
  removeResult : Nat → Option GoError

/-- `mapDatasourcePermissionStringToInt64`: the Go switch starts from
-1 and sets 1 for `"Query"`. -/
def mapDatasourcePermissionStringToInt64 (permission : String) : Int :=
  if permission = "Query" then 1 else -1

/-- `mapDatasourcePermissionInt64ToString`: the Go switch starts from
`"-1"` and sets `"Query"` for 1. -/
def mapDatasourcePermissionInt64ToString (permission : Int) : String :=
  if permission = 1 then "Query" else "-1"

/-- `d.GetOk("permissions")`: returns `ok = false` when the attribute is
unset or equals the zero value of its type (for a `schema.TypeSet`, the
empty set). -/
def getOkPermissions (perms : Option (List Grant)) : Option (List Grant) :=
  match perms with
  | none => none
  | some [] => none
  | some l => some l

/-- The add payload built for one grant in `UpdateDatasourcePermissions`
(lines 77-84): each subject field is assigned from the grant unless the
grant's value is -1, in which case it keeps the Go zero value 0; the
permission string is encoded to its integer code. -/
def buildAddPayload (g : Grant) : DatasourcePermissionAddPayload :=
  { TeamID := if g.team_id ≠ -1 then g.team_id else 0
    UserID := if g.user_id ≠ -1 then g.user_id else 0
    Permission := mapDatasourcePermissionStringToInt64 g.permission }

/-- `strings.HasPrefix(err.Error(), "status: 404")`, stated on the
underlying character sequences. -/
def isNotFoundError (e : GoError) : Bool :=
  List.isPrefixOf "status: 404".data e.data

/-- The add loop of `UpdateDatasourcePermissions` (lines 75-90): issue
one `AddDatasourcePermission` call per grant, sequentially; the first
failing call's error is returned and the remaining grants are skipped.
`idx` is the index of the next add call. Returns the loop's outcome and
the calls issued. -/
def addLoop (client : Client) (dsID : Int) (grants : List Grant)
    (idx : Nat) : Option GoError × List RemoteCall :=
  match grants with
  | [] => (none, [])
  | g :: rest =>
    let call := RemoteCall.add dsID (buildAddPayload g)
    match client.addResult idx with
    | some e => (some e, [call])
    | none =>
      let r := addLoop client dsID rest (idx + 1)
      (r.1, call :: r.2)

/-- The remove loop of `DeleteDatasourcePermissions` (lines 146-151):
issue one `RemoveDatasourcePermission` call per listed record, keyed by
the record's permission code, sequentially; the first failing call's
error is returned and the remaining records are skipped. -/
def removeLoop (client : Client) (dsID : Int)
    (perms : List RemotePermission) (idx : Nat) :
    Option GoError × List RemoteCall :=
  match perms with
  | [] => (none, [])
  | p :: rest =>
    let call := RemoteCall.remove dsID p.Permission
    match client.removeResult idx with
    | some e => (some e, [call])
    | none =>
      let r := removeLoop client dsID rest (idx + 1)
      (r.1, call :: r.2)

/-- `ReadDatasourcePermissions` (lines 97-128): list the remote
permissions; on a not-found error clear the tracking identifier and
return nil; on any other error return it; on success store the projected
records in the `permissions` attribute. -/
def ReadDatasourcePermissions (client : Client) (d : ResourceData) :
    Diag × ResourceData × List RemoteCall :=
  let dsID := d.datasource_id
  match client.listResult with
  | .error e =>
    if isNotFoundError e then
      (none, { d with id := "" }, [RemoteCall.list dsID])
    else
      (some e, d, [RemoteCall.list dsID])
  | .ok perms =>
    let items := perms.map (fun p =>
      { team_id := p.TeamID
        user_id := p.UserID
        permission := mapDatasourcePermissionInt64ToString p.Permission
        : Grant })
    (none, { d with permissions := some items }, [RemoteCall.list dsID])

/-- `UpdateDatasourcePermissions` (lines 66-95): if `GetOk` reports the
permissions set absent/empty, return nil at once; otherwise run the add
loop; on its failure return the error; on full success set the id to the
decimal string of the datasource id and tail-call the read. -/
def UpdateDatasourcePermissions (client : Client) (d : ResourceData) :
    Diag × ResourceData × List RemoteCall :=
  match getOkPermissions d.permissions with
  | none => (none, d, [])
  | some grants =>
    let dsID := d.datasource_id
    let r := addLoop client dsID grants 0
    match r.1 with
    | some e => (some e, d, r.2)
    | none =>
      let d1 := { d with id := toString dsID }
      let rd := ReadDatasourcePermissions client d1
      (rd.1, rd.2.1, r.2 ++ rd.2.2)

/-- `DeleteDatasourcePermissions` (lines 130-154): list the remote
permissions; on a not-found error clear the tracking identifier and
return nil; on any other error return it; otherwise run the remove loop
and return its outcome (the id is not touched on this path). -/
def DeleteDatasourcePermissions (client : Client) (d : ResourceData) :
    Diag × ResourceData × List RemoteCall :=
  let dsID := d.datasource_id
  match client.listResult with
  | .error e =>
    if isNotFoundError e then
      (none, { d with id := "" }, [RemoteCall.list dsID])
    else
      (some e, d, [RemoteCall.list dsID])
  | .ok perms =>
    let r := removeLoop client dsID perms 0
    (r.1, d, RemoteCall.list dsID :: r.2)

/-! ### Helper lemmas about the two sequential loops -/

/-- If every add call up from `idx` succeeds, the add loop returns
success and issues one add call per grant, in order. -/
theorem addLoop_ok (client : Client) (dsID : Int) (grants : List Grant) :
    ∀ idx, (∀ k, k < grants.length → client.addResult (idx + k) = none) →
    addLoop client dsID grants idx =
      (none, grants.map fun g => RemoteCall.add dsID (buildAddPayload g)) := by
  induction grants with
  | nil => intro idx _; rfl
  | cons g rest ih =>
    intro idx h
    have h0 : client.addResult idx = none := by simpa using h 0 (Nat.succ_pos _)
    have hrest : ∀ k, k < rest.length → client.addResult (idx + 1 + k) = none := by
      intro k hk
      rw [Nat.add_right_comm]
      exact h (k + 1) (Nat.succ_lt_succ hk)
    simp [addLoop, h0, ih (idx + 1) hrest]

/-- If the K-th add call (relative to `idx`) fails after K successes,
the add loop stops there: it issues exactly the first K+1 add calls and
returns the K-th call's error. -/
theorem addLoop_fail (client : Client) (dsID : Int) (grants : List Grant) :
    ∀ idx K e, K < grants.length → client.addResult (idx + K) = some e →
    (∀ j, j < K → client.addResult (idx + j) = none) →
    addLoop client dsID grants idx =
      (some e, (grants.take (K + 1)).map fun g =>
        RemoteCall.add dsID (buildAddPayload g)) := by
  induction grants with
  | nil => intro idx K e hK _ _; exact absurd hK (by simp)
  | cons g rest ih =>
    intro idx K e hK hfail hok
    cases K with
    | zero =>
      have h0 : client.addResult idx = some e := by simpa using hfail
      simp [addLoop, h0]
    | succ K' =>
      have h0 : client.addResult idx = none := by simpa using hok 0 (Nat.succ_pos _)
      have hfail' : client.addResult (idx + 1 + K') = some e := by
        rw [Nat.add_right_comm]; exact hfail
      have hok' : ∀ j, j < K' → client.addResult (idx + 1 + j) = none := by
        intro j hj
        rw [Nat.add_right_comm]
        exact hok (j + 1) (Nat.succ_lt_succ hj)
      simp [addLoop, h0, ih (idx + 1) K' e (Nat.lt_of_succ_lt_succ hK) hfail' hok']

/-- If every remove call up from `idx` succeeds, the remove loop returns
success and issues one remove call per listed record, keyed by the
record's permission code, in order. -/
theorem removeLoop_ok (client : Client) (dsID : Int) (perms : List RemotePermission) :
    ∀ idx, (∀ k, k < perms.length → client.removeResult (idx + k) = none) →
    removeLoop client dsID perms idx =
      (none, perms.map fun p => RemoteCall.remove dsID p.Permission) := by
  induction perms with
  | nil => intro idx _; rfl
  | cons p rest ih =>
    intro idx h
    have h0 : client.removeResult idx = none := by simpa using h 0 (Nat.succ_pos _)
    have hrest : ∀ k, k < rest.length → client.removeResult (idx + 1 + k) = none := by
      intro k hk
      rw [Nat.add_right_comm]
      exact h (k + 1) (Nat.succ_lt_succ hk)
    simp [removeLoop, h0, ih (idx + 1) hrest]

/-- If the K-th remove call (relative to `idx`) fails after K successes,
the remove loop stops there: it issues exactly the first K+1 remove
calls and returns the K-th call's error. -/
theorem removeLoop_fail (client : Client) (dsID : Int) (perms : List RemotePermission) :
    ∀ idx K e, K < perms.length → client.removeResult (idx + K) = some e →
    (∀ j, j < K → client.removeResult (idx + j) = none) →
    removeLoop client dsID perms idx =
      (some e, (perms.take (K + 1)).map fun p =>
        RemoteCall.remove dsID p.Permission) := by
  induction perms with
  | nil => intro idx K e hK _ _; exact absurd hK (by simp)
  | cons p rest ih =>
    intro idx K e hK hfail hok
    cases K with
    | zero =>
      have h0 : client.removeResult idx = some e := by simpa using hfail
      simp [removeLoop, h0]
    | succ K' =>
      have h0 : client.removeResult idx = none := by simpa using hok 0 (Nat.succ_pos _)
      have hfail' : client.removeResult (idx + 1 + K') = some e := by
        rw [Nat.add_right_comm]; exact hfail
      have hok' : ∀ j, j < K' → client.removeResult (idx + 1 + j) = none := by
        intro j hj
        rw [Nat.add_right_comm]
        exact hok (j + 1) (Nat.succ_lt_succ hj)
      simp [removeLoop, h0, ih (idx + 1) K' e (Nat.lt_of_succ_lt_succ hK) hfail' hok']

/-! ### Concrete fixtures for witnesses and counterexamples -/

/-- A client on which every remote call succeeds and the list call
returns the empty permission list. -/
def okClient : Client :=
  { addResult := fun _ => none
    listResult := .ok []
    removeResult := fun _ => none }

/-- A client whose list call returns two permission records and on which
every mutation call succeeds. -/
def okClient2 : Client :=
  { addResult := fun _ => none
    listResult := .ok [⟨1, 0, 1⟩, ⟨0, 2, 5⟩]
    removeResult := fun _ => none }

/-- A client whose list call fails with a 404-status error. -/
def notFoundClient : Client :=
  { addResult := fun _ => none
    listResult := .error "status: 404 Not Found"
    removeResult := fun _ => none }

/-- A client whose list call fails with a non-404 error. -/
def serverErrClient : Client :=
  { addResult := fun _ => none
    listResult := .error "status: 500 Internal Server Error"
    removeResult := fun _ => none }

/-- A client on which every add call fails with a 404-status error. -/
def addNotFoundClient : Client :=
  { addResult := fun _ => some "status: 404 data source permission not found"
    listResult := .ok []
    removeResult := fun _ => none }

/-- A client on which the second add call fails and all others
succeed. -/
def failSecondAddClient : Client :=
  { addResult := fun k => if k = 1 then some "boom" else none
    listResult := .ok []
    removeResult := fun _ => none }

/-- A client on which the second remove call fails and all other calls
succeed; the list call returns three records. -/
def failSecondRemoveClient : Client :=
  { addResult := fun _ => none
    listResult := .ok [⟨1, 0, 1⟩, ⟨2, 0, 2⟩, ⟨3, 0, 3⟩]
    removeResult := fun k => if k = 1 then some "remove failed" else none }

/-- A client whose list call returns one record and on which every
remove call fails with a 404-status error. -/
def removeNotFoundClient : Client :=
  { addResult := fun _ => none
    listResult := .ok [⟨1, 0, 1⟩]
    removeResult := fun _ => some "status: 404 data source permission not found" }

/-- A state whose permissions attribute is unset. -/
def dUnset : ResourceData := { id := "", datasource_id := 5, permissions := none }

/-- A state with one desired grant. -/
def dOne : ResourceData :=
  { id := "3", datasource_id := 3, permissions := some [⟨5, 0, "Query"⟩] }

/-- A state with three desired grants. -/
def dThree : ResourceData :=
  { id := "", datasource_id := 7
    permissions := some [⟨1, 0, "Query"⟩, ⟨2, 0, "Query"⟩, ⟨3, 0, "Query"⟩] }

/-- A state with a single grant naming both a team and a user. -/
def dBoth : ResourceData :=
  { id := "", datasource_id := 9, permissions := some [⟨3, 4, "Query"⟩] }

/-- A state with a single grant whose team id is -1. -/
def dNegTeam : ResourceData :=
  { id := "", datasource_id := 7, permissions := some [⟨-1, 0, "Query"⟩] }

/-- A state with a single grant whose team id is the schema default 0. -/
def dZeroTeam : ResourceData :=
  { id := "", datasource_id := 4, permissions := some [⟨0, 7, "Query"⟩] }

/-! ### Claims -/

/-- C8: the permission codec round-trips every recognized symbol — the
recognized set is exactly {"Query"} — and encodes "Query" to 1. -/
theorem claim_C8 :
    mapDatasourcePermissionInt64ToString
      (mapDatasourcePermissionStringToInt64 "Query") = "Query" ∧
    mapDatasourcePermissionStringToInt64 "Query" = 1 :=
  ⟨rfl, rfl⟩

/-- C9: the permission codec is total and never fails: encode returns -1
for every string other than "Query", and decode returns "-1" for every
code other than 1; unrecognized input yields a sentinel, never an
error. -/
theorem claim_C9 :
    (∀ s : String, s ≠ "Query" → mapDatasourcePermissionStringToInt64 s = -1) ∧
    (∀ c : Int, c ≠ 1 → mapDatasourcePermissionInt64ToString c = "-1") := by
  constructor
  · intro s hs
    simp [mapDatasourcePermissionStringToInt64, hs]
  · intro c hc
    simp [mapDatasourcePermissionInt64ToString, hc]

theorem claim_C9_witness :
    mapDatasourcePermissionStringToInt64 "bogus" = -1 ∧
    mapDatasourcePermissionInt64ToString 9999 = "-1" :=
  ⟨claim_C9.1 "bogus" (by decide), claim_C9.2 9999 (by decide)⟩

/-- C4: with an empty or unset desired permission set, the
create/update operation returns success immediately: no remote call of
any kind is issued and the state (in particular the tracking
identifier) is unchanged. -/
theorem claim_C4 (client : Client) (d : ResourceData)
    (h : d.permissions = none ∨ d.permissions = some []) :
    UpdateDatasourcePermissions client d = (none, d, []) := by
  rcases h with h | h <;> simp [UpdateDatasourcePermissions, getOkPermissions, h]

theorem claim_C4_witness :
    UpdateDatasourcePermissions okClient dUnset = (none, dUnset, []) :=
  claim_C4 okClient dUnset (Or.inl rfl)

/-- C2: on the read and delete paths, an error from the list call whose
message starts with "status: 404" clears the tracking identifier and
yields a nil result; any other error from the list call is returned
unmodified and the state is untouched. -/
theorem claim_C2 (client : Client) (d : ResourceData) (e : GoError)
    (h : client.listResult = .error e) :
    (isNotFoundError e = true →
      ReadDatasourcePermissions client d =
        (none, { d with id := "" }, [RemoteCall.list d.datasource_id]) ∧
      DeleteDatasourcePermissions client d =
        (none, { d with id := "" }, [RemoteCall.list d.datasource_id])) ∧
    (isNotFoundError e = false →
      ReadDatasourcePermissions client d =
        (some e, d, [RemoteCall.list d.datasource_id]) ∧
      DeleteDatasourcePermissions client d =
        (some e, d, [RemoteCall.list d.datasource_id])) := by
  refine ⟨fun hnf => ?_, fun hnf => ?_⟩ <;>
    simp [ReadDatasourcePermissions, DeleteDatasourcePermissions, h, hnf]

theorem claim_C2_witness :
    (isNotFoundError "status: 404 Not Found" = true ∧
      ReadDatasourcePermissions notFoundClient dOne =
        (none, { dOne with id := "" }, [RemoteCall.list 3]) ∧
      DeleteDatasourcePermissions notFoundClient dOne =
        (none, { dOne with id := "" }, [RemoteCall.list 3])) ∧
    (isNotFoundError "status: 500 Internal Server Error" = false ∧
      ReadDatasourcePermissions serverErrClient dOne =
        (some "status: 500 Internal Server Error", dOne, [RemoteCall.list 3]) ∧
      DeleteDatasourcePermissions serverErrClient dOne =
        (some "status: 500 Internal Server Error", dOne, [RemoteCall.list 3])) :=
  ⟨⟨by decide, (claim_C2 notFoundClient dOne _ rfl).1 (by decide)⟩,
   ⟨by decide, (claim_C2 serverErrClient dOne _ rfl).2 (by decide)⟩⟩

/-- C1: on the delete path with a remote list of N records, exactly one
remove call is issued per record, keyed by the record's permission code,
in listed order; the result is nil exactly when all N calls succeed, and
if the K-th call fails the loop stops there and that call's error is
returned. -/
theorem claim_C1 (client : Client) (d : ResourceData)
    (perms : List RemotePermission) (h : client.listResult = .ok perms) :
    ((∀ k, k < perms.length → client.removeResult k = none) →
      DeleteDatasourcePermissions client d =
        (none, d, RemoteCall.list d.datasource_id ::
          perms.map fun p => RemoteCall.remove d.datasource_id p.Permission)) ∧
    (∀ K e, K < perms.length → client.removeResult K = some e →
      (∀ j, j < K → client.removeResult j = none) →
      DeleteDatasourcePermissions client d =
        (some e, d, RemoteCall.list d.datasource_id ::
          (perms.take (K + 1)).map fun p =>
            RemoteCall.remove d.datasource_id p.Permission)) := by
  constructor
  · intro hok
    have hl := removeLoop_ok client d.datasource_id perms 0 (by simpa using hok)
    simp [DeleteDatasourcePermissions, h, hl]
  · intro K e hK hfail hjok
    have hl := removeLoop_fail client d.datasource_id perms 0 K e hK
      (by simpa using hfail) (by simpa using hjok)
    simp [DeleteDatasourcePermissions, h, hl]

theorem claim_C1_witness :
    (DeleteDatasourcePermissions okClient2 dOne =
      (none, dOne, [RemoteCall.list 3, RemoteCall.remove 3 1,
        RemoteCall.remove 3 5])) ∧
    (DeleteDatasourcePermissions failSecondRemoveClient dOne =
      (some "remove failed", dOne, [RemoteCall.list 3, RemoteCall.remove 3 1,
        RemoteCall.remove 3 2])) :=
  ⟨(claim_C1 okClient2 dOne [⟨1, 0, 1⟩, ⟨0, 2, 5⟩] rfl).1 (fun _ _ => rfl),
   (claim_C1 failSecondRemoveClient dOne [⟨1, 0, 1⟩, ⟨2, 0, 2⟩, ⟨3, 0, 3⟩]
     rfl).2 1 "remove failed" (by decide) rfl
     (by intro j hj; interval_cases j; rfl)⟩

/-- C3: on the create/update path, add calls are issued one grant at a
time in order; if the K-th call fails after K successes, the remaining
grants get no calls, the state is unchanged (no compensating undo — the
trace holds exactly the K successful adds and the failing one, and no
subtractive call), and the K-th call's error is returned unmodified. -/
theorem claim_C3 (client : Client) (d : ResourceData) (grants : List Grant)
    (K : Nat) (e : GoError)
    (hperm : getOkPermissions d.permissions = some grants)
    (hK : K < grants.length)
    (hfail : client.addResult K = some e)
    (hok : ∀ j, j < K → client.addResult j = none) :
    UpdateDatasourcePermissions client d =
      (some e, d, (grants.take (K + 1)).map fun g =>
        RemoteCall.add d.datasource_id (buildAddPayload g)) := by
  have hl := addLoop_fail client d.datasource_id grants 0 K e hK
    (by simpa using hfail) (by simpa using hok)
  simp [UpdateDatasourcePermissions, hperm, hl]

theorem claim_C3_witness :
    UpdateDatasourcePermissions failSecondAddClient dThree =
      (some "boom", dThree,
        [RemoteCall.add 7 { TeamID := 1, UserID := 0, Permission := 1 },
         RemoteCall.add 7 { TeamID := 2, UserID := 0, Permission := 1 }]) :=
  claim_C3 failSecondAddClient dThree
    [⟨1, 0, "Query"⟩, ⟨2, 0, "Query"⟩, ⟨3, 0, "Query"⟩] 1 "boom"
    rfl (by decide) rfl (by intro j hj; interval_cases j; rfl)

/-- C7: when the permissions set is present and every add call succeeds,
the operation first assigns the tracking identifier to the decimal
string of the resource id and then runs the read-back on that updated
state; the result and final state the operation returns are those of
the read. -/
theorem claim_C7 (client : Client) (d : ResourceData) (grants : List Grant)
    (hperm : getOkPermissions d.permissions = some grants)
    (hok : ∀ k, k < grants.length → client.addResult k = none) :
    UpdateDatasourcePermissions client d =
      ((ReadDatasourcePermissions client
          { d with id := toString d.datasource_id }).1,
       (ReadDatasourcePermissions client
          { d with id := toString d.datasource_id }).2.1,
       (grants.map fun g => RemoteCall.add d.datasource_id (buildAddPayload g)) ++
         (ReadDatasourcePermissions client
           { d with id := toString d.datasource_id }).2.2) := by
  have hl := addLoop_ok client d.datasource_id grants 0 (by simpa using hok)
  simp [UpdateDatasourcePermissions, hperm, hl]

theorem claim_C7_witness :
    UpdateDatasourcePermissions okClient dOne =
      ((ReadDatasourcePermissions okClient { dOne with id := "3" }).1,
       (ReadDatasourcePermissions okClient { dOne with id := "3" }).2.1,
       [RemoteCall.add 3 { TeamID := 5, UserID := 0, Permission := 1 }] ++
         (ReadDatasourcePermissions okClient { dOne with id := "3" }).2.2) :=
  claim_C7 okClient dOne [⟨5, 0, "Query"⟩] rfl (fun _ _ => rfl)

/-- The C5 payload rule as the claim words it: each subject field is
assigned from the grant exactly when it differs from the schema default
0, and otherwise stays at the Go zero value 0. Kept separate from
`buildAddPayload` (the code's rule, which tests against -1) so the two
can be compared. -/
def claimPayloadRuleC5 (g : Grant) : DatasourcePermissionAddPayload :=
  { TeamID := if g.team_id ≠ 0 then g.team_id else 0
    UserID := if g.user_id ≠ 0 then g.user_id else 0
    Permission := mapDatasourcePermissionStringToInt64 g.permission }

/-- C5 as stated is false: for a grant with team_id = -1 the code leaves
the payload's TeamID at 0 (the test is against -1, not against the
schema default 0), while the claim's rule would assign -1; the add call
the operation actually issues carries TeamID = 0. -/
theorem claim_C5_counterexample :
    buildAddPayload { team_id := -1, user_id := 0, permission := "Query" } ≠
      claimPayloadRuleC5 { team_id := -1, user_id := 0, permission := "Query" } ∧
    (UpdateDatasourcePermissions okClient dNegTeam).2.2.head? =
      some (RemoteCall.add 7 { TeamID := 0, UserID := 0, Permission := 1 }) ∧
    claimPayloadRuleC5 { team_id := -1, user_id := 0, permission := "Query" } =
      { TeamID := -1, UserID := 0, Permission := 1 } := by
  refine ⟨by decide, ?_, by decide⟩
  rfl

/-- C5 amended: the additive payload encodes the grant's permission
symbol to its integer code and assigns each of the team-ID/user-ID
fields from the grant unless that field equals -1 (the field then stays
0); both fields may be assigned simultaneously with no mutual-exclusion
validation, and (when every call succeeds) exactly one add call is
issued per grant, followed only by the read-back's list call. -/
theorem claim_C5_amended (client : Client) (d : ResourceData)
    (grants : List Grant)
    (hperm : getOkPermissions d.permissions = some grants)
    (hok : ∀ k, k < grants.length → client.addResult k = none) :
    (UpdateDatasourcePermissions client d).2.2 =
      (grants.map fun g => RemoteCall.add d.datasource_id
        { TeamID := if g.team_id = -1 then 0 else g.team_id
          UserID := if g.user_id = -1 then 0 else g.user_id
          Permission := mapDatasourcePermissionStringToInt64 g.permission }) ++
      [RemoteCall.list d.datasource_id] := by
  have hl := addLoop_ok client d.datasource_id grants 0 (by simpa using hok)
  cases hls : client.listResult with
  | error e =>
    cases hnf : isNotFoundError e <;>
      simp [UpdateDatasourcePermissions, ReadDatasourcePermissions, hperm, hl,
        hls, hnf, buildAddPayload, ite_not]
  | ok perms =>
    simp [UpdateDatasourcePermissions, ReadDatasourcePermissions, hperm, hl,
      hls, buildAddPayload, ite_not]

theorem claim_C5_amended_witness :
    (UpdateDatasourcePermissions okClient dBoth).2.2 =
      [RemoteCall.add 9 { TeamID := 3, UserID := 4, Permission := 1 },
       RemoteCall.list 9] :=
  claim_C5_amended okClient dBoth [⟨3, 4, "Query"⟩] rfl (fun _ _ => rfl)

/-- C6 as stated is false: a not-found error returned by an add call is
not recovered — the operation returns it as a failure and leaves the
tracking identifier in place. -/
theorem claim_C6_counterexample :
    isNotFoundError "status: 404 data source permission not found" = true ∧
    (UpdateDatasourcePermissions addNotFoundClient dOne).1 =
      some "status: 404 data source permission not found" ∧
    (UpdateDatasourcePermissions addNotFoundClient dOne).2.1.id = "3" := by
  refine ⟨by decide, ?_, ?_⟩ <;> rfl

/-- C6 amended: a not-found error is recovered into a cleared-state
success only when it comes from the list call, on the read and delete
paths; an error from an add or remove call — not-found or not — is
returned to the caller as a failure. -/
theorem claim_C6_amended :
    (∀ (client : Client) (d : ResourceData) (e : GoError),
      client.listResult = .error e → isNotFoundError e = true →
      (ReadDatasourcePermissions client d).1 = none ∧
      (ReadDatasourcePermissions client d).2.1.id = "" ∧
      (DeleteDatasourcePermissions client d).1 = none ∧
      (DeleteDatasourcePermissions client d).2.1.id = "") ∧
    (∀ (client : Client) (d : ResourceData) (g : Grant) (rest : List Grant)
      (e : GoError),
      getOkPermissions d.permissions = some (g :: rest) →
      client.addResult 0 = some e →
      (UpdateDatasourcePermissions client d).1 = some e) ∧
    (∀ (client : Client) (d : ResourceData) (p : RemotePermission)
      (rest : List RemotePermission) (e : GoError),
      client.listResult = .ok (p :: rest) →
      client.removeResult 0 = some e →
      (DeleteDatasourcePermissions client d).1 = some e) := by
  refine ⟨?_, ?_, ?_⟩
  · intro client d e h hnf
    simp [ReadDatasourcePermissions, DeleteDatasourcePermissions, h, hnf]
  · intro client d g rest e hperm hfail
    simp [UpdateDatasourcePermissions, hperm, addLoop, hfail]
  · intro client d p rest e h hfail
    simp [DeleteDatasourcePermissions, h, removeLoop, hfail]

theorem claim_C6_amended_witness :
    (ReadDatasourcePermissions notFoundClient dOne).1 = none ∧
    (UpdateDatasourcePermissions addNotFoundClient dOne).1 =
      some "status: 404 data source permission not found" ∧
    (DeleteDatasourcePermissions removeNotFoundClient dOne).1 =
      some "status: 404 data source permission not found" :=
  ⟨(claim_C6_amended.1 notFoundClient dOne "status: 404 Not Found" rfl
      (by decide)).1,
   claim_C6_amended.2.1 addNotFoundClient dOne ⟨5, 0, "Query"⟩ []
     "status: 404 data source permission not found" rfl rfl,
   claim_C6_amended.2.2 removeNotFoundClient dOne ⟨1, 0, 1⟩ []
     "status: 404 data source permission not found" rfl rfl⟩

/-- C10: in the create/update path the only subject value treated as
unset is the literal -1: the issued payload's TeamID equals the grant's
team_id unless team_id = -1 (the field then stays 0), likewise UserID;
in particular the schema default 0 is copied into the payload. -/
theorem claim_C10 (client : Client) (d : ResourceData) (g : Grant)
    (rest : List Grant)
    (hperm : getOkPermissions d.permissions = some (g :: rest)) :
    (UpdateDatasourcePermissions client d).2.2.head? =
      some (RemoteCall.add d.datasource_id (buildAddPayload g)) ∧
    (buildAddPayload g).TeamID = (if g.team_id = -1 then 0 else g.team_id) ∧
    (buildAddPayload g).UserID = (if g.user_id = -1 then 0 else g.user_id) := by
  refine ⟨?_, by simp [buildAddPayload, ite_not], by simp [buildAddPayload, ite_not]⟩
  cases h0 : client.addResult 0 with
  | some e => simp [UpdateDatasourcePermissions, hperm, addLoop, h0]
  | none =>
    cases h1 : (addLoop client d.datasource_id rest 1).1 with
    | some e => simp [UpdateDatasourcePermissions, hperm, addLoop, h0, h1]
    | none => simp [UpdateDatasourcePermissions, hperm, addLoop, h0, h1]

theorem claim_C10_witness :
    (UpdateDatasourcePermissions okClient dZeroTeam).2.2.head? =
      some (RemoteCall.add 4 { TeamID := 0, UserID := 7, Permission := 1 }) ∧
    (buildAddPayload ⟨0, 7, "Query"⟩).TeamID = 0 ∧
    (buildAddPayload ⟨0, 7, "Query"⟩).UserID = 7 :=
  claim_C10 okClient dZeroTeam ⟨0, 7, "Query"⟩ [] rfl
